import Mathlib

/-!
Shallow embedding of the `aqi-rs` library (`src/lib.rs`).

Rust `f64` values are modelled as exact rationals (`ℚ`); decimal literals in
the source become the corresponding exact rationals.  The Rust saturating
numeric casts `as u64` / `as u32` on floats (truncation toward zero, negative
values saturating to `0`, values above the maximum saturating to it) are
modelled explicitly by `castSat`.  Fallible results use `Option` and `Except`
exactly as the source uses `Option` and `Result`.
-/

namespace AqiRs

/-- Source `AirQualityLevel`: the human-friendly interpretation of the AQI. -/
inductive AirQualityLevel where
  | Good
  | Moderate
  | UnhealthySensitive
  | Unhealthy
  | VeryUnhealthy
  | Hazardous
  deriving DecidableEq, Repr

/-- Source `AirQuality`: result type for AQI calculations.  The Rust `u32`
field `aqi` is modelled as a natural number. -/
structure AirQuality where
  aqi : ℕ
  level : AirQualityLevel
  deriving DecidableEq, Repr

/-- Source `Breakpoint`: one row of a breakpoint table. -/
structure Breakpoint where
  conc_low : ℚ
  conc_high : ℚ
  aqi_low : ℕ
  aqi_high : ℕ
  level : AirQualityLevel
  deriving DecidableEq, Repr

/-- Source macro `def_try_from_aq`: the body of `TryFrom<$tpe> for
AirQualityLevel`, identical for each of the six integer widths
`u16, i16, u32, i32, u64, i64`; each instance is this function restricted to
the values of its width, so it is modelled once over `ℤ`. -/
def try_from_aq (v : ℤ) : Except String AirQualityLevel :=
  if 0 ≤ v ∧ v ≤ 50 then .ok .Good
  else if 51 ≤ v ∧ v ≤ 100 then .ok .Moderate
  else if 101 ≤ v ∧ v ≤ 150 then .ok .UnhealthySensitive
  else if 151 ≤ v ∧ v ≤ 200 then .ok .Unhealthy
  else if 201 ≤ v ∧ v ≤ 300 then .ok .VeryUnhealthy
  else if 301 ≤ v ∧ v ≤ 500 then .ok .Hazardous
  else .error "Value is out of range for AQI"

/-- Source `OZONE8_BREAKPOINTS`. -/
def OZONE8_BREAKPOINTS : List Breakpoint :=
  [⟨0.000, 0.054, 0, 50, .Good⟩,
   ⟨0.055, 0.070, 51, 100, .Moderate⟩,
   ⟨0.071, 0.085, 101, 150, .UnhealthySensitive⟩,
   ⟨0.086, 0.105, 151, 200, .Unhealthy⟩,
   ⟨0.106, 0.200, 201, 300, .VeryUnhealthy⟩]

/-- Source `OZONE1_BREAKPOINTS`. -/
def OZONE1_BREAKPOINTS : List Breakpoint :=
  [⟨0.125, 0.164, 101, 150, .UnhealthySensitive⟩,
   ⟨0.165, 0.204, 151, 200, .Unhealthy⟩,
   ⟨0.205, 0.404, 201, 300, .VeryUnhealthy⟩,
   ⟨0.405, 0.504, 301, 400, .Hazardous⟩,
   ⟨0.505, 0.604, 401, 500, .Hazardous⟩]

/-- Source `PM25_BREAKPOINTS`. -/
def PM25_BREAKPOINTS : List Breakpoint :=
  [⟨0.0, 12.0, 0, 50, .Good⟩,
   ⟨12.1, 35.4, 51, 100, .Moderate⟩,
   ⟨35.5, 55.4, 101, 150, .UnhealthySensitive⟩,
   ⟨55.5, 150.4, 151, 200, .Unhealthy⟩,
   ⟨150.5, 250.4, 201, 300, .VeryUnhealthy⟩,
   ⟨250.5, 350.4, 301, 400, .Hazardous⟩,
   ⟨350.5, 500.4, 401, 500, .Hazardous⟩]

/-- Source `PM10_BREAKPOINTS`. -/
def PM10_BREAKPOINTS : List Breakpoint :=
  [⟨0.0, 54.0, 0, 50, .Good⟩,
   ⟨55.0, 154.0, 51, 100, .Moderate⟩,
   ⟨155.0, 254.0, 101, 150, .UnhealthySensitive⟩,
   ⟨255.0, 354.0, 151, 200, .Unhealthy⟩,
   ⟨355.0, 424.0, 201, 300, .VeryUnhealthy⟩,
   ⟨425.0, 504.0, 301, 400, .Hazardous⟩,
   ⟨505.0, 604.0, 401, 500, .Hazardous⟩]

/-- Source `CO_BREAKPOINTS`. -/
def CO_BREAKPOINTS : List Breakpoint :=
  [⟨0.0, 4.4, 0, 50, .Good⟩,
   ⟨4.5, 9.4, 51, 100, .Moderate⟩,
   ⟨9.5, 12.4, 101, 150, .UnhealthySensitive⟩,
   ⟨12.5, 15.4, 151, 200, .Unhealthy⟩,
   ⟨15.5, 30.4, 201, 300, .VeryUnhealthy⟩,
   ⟨30.5, 40.4, 301, 400, .Hazardous⟩,
   ⟨40.5, 50.4, 401, 500, .Hazardous⟩]

/-- Source `SO2_1_BREAKPOINTS`. -/
def SO2_1_BREAKPOINTS : List Breakpoint :=
  [⟨0.0, 35.0, 0, 50, .Good⟩,
   ⟨36.0, 75.0, 51, 100, .Moderate⟩,
   ⟨76.0, 185.0, 101, 150, .UnhealthySensitive⟩]

/-- Source `SO2_24_BREAKPOINTS`. -/
def SO2_24_BREAKPOINTS : List Breakpoint :=
  [⟨0.0, 35.0, 0, 50, .Good⟩,
   ⟨36.0, 75.0, 51, 100, .Moderate⟩,
   ⟨76.0, 185.0, 101, 150, .UnhealthySensitive⟩,
   ⟨186.0, 304.0, 151, 200, .Unhealthy⟩,
   ⟨305.0, 604.0, 201, 300, .VeryUnhealthy⟩,
   ⟨605.0, 804.0, 301, 400, .Hazardous⟩,
   ⟨805.0, 1004.0, 401, 500, .Hazardous⟩]

/-- Source `NO2_BREAKPOINTS`. -/
def NO2_BREAKPOINTS : List Breakpoint :=
  [⟨0.0, 53.0, 0, 50, .Good⟩,
   ⟨54.0, 100.0, 51, 100, .Moderate⟩,
   ⟨101.0, 360.0, 101, 150, .UnhealthySensitive⟩,
   ⟨361.0, 649.0, 151, 200, .Unhealthy⟩,
   ⟨650.0, 1249.0, 201, 300, .VeryUnhealthy⟩,
   ⟨1250.0, 1649.0, 301, 400, .Hazardous⟩,
   ⟨1650.0, 2049.0, 401, 500, .Hazardous⟩]

/-- The eight breakpoint tables of the source, in declaration order. -/
def allTables : List (List Breakpoint) :=
  [OZONE8_BREAKPOINTS, OZONE1_BREAKPOINTS, PM25_BREAKPOINTS, PM10_BREAKPOINTS,
   CO_BREAKPOINTS, SO2_1_BREAKPOINTS, SO2_24_BREAKPOINTS, NO2_BREAKPOINTS]

/-- Rust saturating cast of a float (here an exact rational) to an unsigned
integer with maximum value `cap`: truncation toward zero, negative values
give `0`, values above `cap` give `cap`. -/
def castSat (cap : ℕ) (x : ℚ) : ℕ :=
  if x < 0 then 0 else min (Int.toNat ⌊x⌋) cap

/-- Rust `as u64` on a float. -/
def castU64 : ℚ → ℕ := castSat (2 ^ 64 - 1)

/-- Rust `as u32` on a float. -/
def castU32 : ℚ → ℕ := castSat (2 ^ 32 - 1)

/-- Rust `f64::round`: round half away from zero. -/
def rustRound (val : ℚ) : ℚ :=
  if 0 ≤ val then (⌊val + 1/2⌋ : ℚ) else -((⌊-val + 1/2⌋ : ℚ))

/-- Source `round`, the `std` build path: `val.round() as u32`. -/
def round (val : ℚ) : ℕ :=
  castU32 (rustRound val)

/-- Source `round`, the `no_std` build path: `let whole = val as u32;
let frac = val - (whole as f64); if frac >= 0.5 { whole + 1 } else { whole }`.
The `u32` increment wraps modulo `2 ^ 32`. -/
def roundNoStd (val : ℚ) : ℕ :=
  if 1/2 ≤ val - (castU32 val : ℚ) then (castU32 val + 1) % 2 ^ 32
  else castU32 val

/-- The linear interpolation expression bound to `aqi` inside the source
`calc_aqi`. -/
def interp (b : Breakpoint) (c : ℚ) : ℚ :=
  ((b.aqi_high : ℚ) - (b.aqi_low : ℚ)) / (b.conc_high - b.conc_low)
    * (c - b.conc_low) + (b.aqi_low : ℚ)

/-- Source `find_breakpoint`: the first breakpoint whose closed range contains
the concentration (the semantics of `iter().find(..)` on the table, written as
direct recursion). -/
def find_breakpoint : List Breakpoint → ℚ → Option Breakpoint
  | [], _ => none
  | b :: rest, concentration =>
    if b.conc_low ≤ concentration ∧ concentration ≤ b.conc_high then some b
    else find_breakpoint rest concentration

/-- Source `calc_aqi`. -/
def calc_aqi (breakpoints : List Breakpoint) (concentration : ℚ) :
    Option AirQuality :=
  (find_breakpoint breakpoints concentration).map fun b =>
    { aqi := round (interp b concentration), level := b.level }

/-- Source `trunc`: `((value * truncator) as u64) as f64 / truncator` with
`truncator = 10u32.pow(nplaces) as f64`. -/
def trunc (value : ℚ) (nplaces : ℕ) : ℚ :=
  (castU64 (value * (10 : ℚ) ^ nplaces) : ℚ) / (10 : ℚ) ^ nplaces

/-- Source `ozone8`. -/
def ozone8 (concentration : ℚ) : Option AirQuality :=
  calc_aqi OZONE8_BREAKPOINTS (trunc concentration 3)

/-- Source `ozone1`. -/
def ozone1 (concentration : ℚ) : Option AirQuality :=
  calc_aqi OZONE1_BREAKPOINTS (trunc concentration 3)

/-- Source `pm2_5`. -/
def pm2_5 (concentration : ℚ) : Option AirQuality :=
  calc_aqi PM25_BREAKPOINTS (trunc concentration 1)

/-- Source `pm2_5_epa`. -/
def pm2_5_epa (concentration : ℚ) (humidity : ℚ) : Option AirQuality :=
  if 0 ≤ humidity ∧ humidity ≤ 1 then
    calc_aqi PM25_BREAKPOINTS
      (trunc (0.52 * concentration - 0.085 * humidity + 5.71) 1)
  else
    none

/-- Source `pm2_5_lrapa`. -/
def pm2_5_lrapa (concentration : ℚ) : Option AirQuality :=
  if concentration ≤ 65 then
    calc_aqi PM25_BREAKPOINTS (trunc (0.5 * concentration - 0.66) 1)
  else
    none

/-- Source `pm2_5_aqandu`. -/
def pm2_5_aqandu (concentration : ℚ) : Option AirQuality :=
  calc_aqi PM25_BREAKPOINTS (trunc (0.778 * concentration + 2.65) 1)

/-- Source `pm10`: the concentration is truncated by `as u32 as f64`. -/
def pm10 (concentration : ℚ) : Option AirQuality :=
  calc_aqi PM10_BREAKPOINTS ((castU32 concentration : ℕ) : ℚ)

/-- Source `co`. -/
def co (concentration : ℚ) : Option AirQuality :=
  calc_aqi CO_BREAKPOINTS (trunc concentration 1)

/-- Source `so2_1`. -/
def so2_1 (concentration : ℚ) : Option AirQuality :=
  calc_aqi SO2_1_BREAKPOINTS (trunc concentration 0)

/-- Source `so2_24`. -/
def so2_24 (concentration : ℚ) : Option AirQuality :=
  calc_aqi SO2_24_BREAKPOINTS (trunc concentration 0)

/-- Source `no2`. -/
def no2 (concentration : ℚ) : Option AirQuality :=
  calc_aqi NO2_BREAKPOINTS (trunc concentration 0)

/-- Well-formedness of one breakpoint: nonempty concentration span, ordered
AQI span bounded by 500. -/
abbrev bpWF (b : Breakpoint) : Prop :=
  b.conc_low < b.conc_high ∧ b.aqi_low ≤ b.aqi_high ∧ b.aqi_high ≤ 500

/-- Breakpoints of a table are mutually disjoint and strictly ordered on both
axes. -/
abbrev tableOrdered (l : List Breakpoint) : Prop :=
  l.Pairwise fun a b => a.conc_high < b.conc_low ∧ a.aqi_high < b.aqi_low

/-- Well-formedness of a whole table. -/
abbrev tableWF (l : List Breakpoint) : Prop :=
  (∀ b ∈ l, bpWF b) ∧ tableOrdered l

/-! ### Helper lemmas about the numeric primitives -/

theorem castSat_of_neg {cap : ℕ} {x : ℚ} (hx : x < 0) : castSat cap x = 0 :=
  if_pos hx

theorem castSat_natCast (cap n : ℕ) : castSat cap ((n : ℕ) : ℚ) = min n cap := by
  rw [castSat, if_neg (not_lt.mpr (by positivity))]
  norm_num

theorem castSat_eval {cap : ℕ} {x : ℚ} {n : ℕ} (h1 : (n : ℚ) ≤ x)
    (h2 : x < n + 1) (hn : n ≤ cap) : castSat cap x = n := by
  have hx : ¬ x < 0 := not_lt.mpr (le_trans (by positivity) h1)
  have hf : ⌊x⌋ = (n : ℤ) :=
    Int.floor_eq_iff.mpr ⟨by exact_mod_cast h1, by push_cast; linarith⟩
  rw [castSat, if_neg hx, hf]
  simp [hn]

theorem castSat_mono {cap : ℕ} {x y : ℚ} (h : x ≤ y) :
    castSat cap x ≤ castSat cap y := by
  rw [castSat, castSat]
  by_cases hy : y < 0
  · rw [if_pos (lt_of_le_of_lt h hy), if_pos hy]
  · rw [if_neg hy]
    by_cases hx : x < 0
    · rw [if_pos hx]; exact Nat.zero_le _
    · rw [if_neg hx]
      exact min_le_min (Int.toNat_le_toNat (Int.floor_mono h)) le_rfl

theorem round_eval {x : ℚ} {n : ℕ} (hx : 0 ≤ x) (h1 : (n : ℚ) ≤ x + 1/2)
    (h2 : x + 1/2 < n + 1) (hn : n ≤ 2 ^ 32 - 1) : round x = n := by
  rw [round, rustRound, if_pos hx]
  have hf : ⌊x + 1/2⌋ = (n : ℤ) :=
    Int.floor_eq_iff.mpr ⟨by exact_mod_cast h1, by push_cast; linarith⟩
  rw [hf, castU32]
  push_cast
  rw [castSat_natCast]
  exact Nat.min_eq_left hn

theorem round_natCast {n : ℕ} (hn : n ≤ 2 ^ 32 - 1) : round ((n : ℕ) : ℚ) = n :=
  round_eval (by positivity) (by norm_num) (by norm_num) hn

theorem rustRound_mono {x y : ℚ} (h : x ≤ y) : rustRound x ≤ rustRound y := by
  rw [rustRound, rustRound]
  by_cases hx : 0 ≤ x
  · rw [if_pos hx, if_pos (le_trans hx h)]
    exact_mod_cast Int.floor_mono (by linarith)
  · rw [if_neg hx]
    by_cases hy : 0 ≤ y
    · rw [if_pos hy]
      have h1 : (0 : ℤ) ≤ ⌊y + 1/2⌋ := Int.floor_nonneg.mpr (by linarith)
      have h2 : (0 : ℤ) ≤ ⌊-x + 1/2⌋ := Int.floor_nonneg.mpr (by push_neg at hx; linarith)
      have h1q : (0 : ℚ) ≤ (⌊y + 1/2⌋ : ℚ) := by exact_mod_cast h1
      have h2q : (0 : ℚ) ≤ (⌊-x + 1/2⌋ : ℚ) := by exact_mod_cast h2
      linarith
    · rw [if_neg hy]
      have hm : ⌊-y + 1/2⌋ ≤ ⌊-x + 1/2⌋ := Int.floor_mono (by linarith)
      have hmq : ((⌊-y + 1/2⌋ : ℤ) : ℚ) ≤ ((⌊-x + 1/2⌋ : ℤ) : ℚ) := by exact_mod_cast hm
      linarith

theorem round_mono {x y : ℚ} (h : x ≤ y) : round x ≤ round y :=
  castSat_mono (rustRound_mono h)

theorem round_le_of_le {x : ℚ} {n : ℕ} (hx : x ≤ (n : ℚ))
    (hn : n ≤ 2 ^ 32 - 1) : round x ≤ n := by
  have := round_mono hx
  rwa [round_natCast hn] at this

theorem le_round_of_le {x : ℚ} {n : ℕ} (hx : (n : ℚ) ≤ x)
    (hn : n ≤ 2 ^ 32 - 1) : n ≤ round x := by
  have := round_mono hx
  rwa [round_natCast hn] at this

theorem trunc_eq_self {v : ℚ} {nplaces k : ℕ} (hv : v * 10 ^ nplaces = (k : ℚ))
    (hk : k ≤ 2 ^ 64 - 1) : trunc v nplaces = v := by
  rw [trunc]
  have h1 : (k : ℚ) ≤ v * 10 ^ nplaces := le_of_eq hv.symm
  have h2 : v * 10 ^ nplaces < k + 1 := by rw [hv]; linarith
  rw [castU64, castSat_eval h1 h2 hk]
  field_simp at hv ⊢
  linarith [hv]

theorem trunc_of_neg {v : ℚ} (nplaces : ℕ) (hv : v < 0) : trunc v nplaces = 0 := by
  have hneg : v * (10 : ℚ) ^ nplaces < 0 := mul_neg_of_neg_of_pos hv (by positivity)
  rw [trunc, castU64, castSat_of_neg hneg]
  norm_num

theorem trunc_mono {x y : ℚ} (nplaces : ℕ) (h : x ≤ y) :
    trunc x nplaces ≤ trunc y nplaces := by
  rw [trunc, trunc]
  have hT : (0 : ℚ) < 10 ^ nplaces := by positivity
  have hle : castU64 (x * 10 ^ nplaces) ≤ castU64 (y * 10 ^ nplaces) :=
    castSat_mono (by nlinarith)
  exact div_le_div_of_nonneg_right (by exact_mod_cast hle) hT.le

theorem trunc_nonneg (v : ℚ) (nplaces : ℕ) : 0 ≤ trunc v nplaces := by
  rw [trunc]
  positivity

/-! ### Helper lemmas about breakpoint lookup and interpolation -/

theorem calc_aqi_eval {l : List Breakpoint} {c : ℚ} {b : Breakpoint} {n : ℕ}
    (hf : find_breakpoint l c = some b) (h0 : 0 ≤ interp b c)
    (h1 : (n : ℚ) ≤ interp b c + 1/2) (h2 : interp b c + 1/2 < n + 1)
    (hn : n ≤ 2 ^ 32 - 1) :
    calc_aqi l c = some ⟨n, b.level⟩ := by
  rw [calc_aqi, hf]
  simp only [Option.map_some']
  rw [round_eval h0 h1 h2 hn]

theorem find_breakpoint_eq_of_mem {l : List Breakpoint} {b : Breakpoint} {c : ℚ}
    (hord : tableOrdered l) (hmem : b ∈ l) (h1 : b.conc_low ≤ c)
    (h2 : c ≤ b.conc_high) : find_breakpoint l c = some b := by
  induction l with
  | nil => cases hmem
  | cons a t ih =>
    have hord2 := List.pairwise_cons.mp hord
    rcases List.mem_cons.mp hmem with rfl | hmem2
    · rw [find_breakpoint, if_pos ⟨h1, h2⟩]
    · have hrel := hord2.1 b hmem2
      have hno : ¬ (a.conc_low ≤ c ∧ c ≤ a.conc_high) := by
        rintro ⟨_, hca⟩
        exact absurd (lt_of_lt_of_le hrel.1 h1) (not_lt.mpr hca)
      rw [find_breakpoint, if_neg hno]
      exact ih hord2.2 hmem2

theorem find_breakpoint_spec {l : List Breakpoint} {b : Breakpoint} {c : ℚ}
    (h : find_breakpoint l c = some b) :
    b ∈ l ∧ b.conc_low ≤ c ∧ c ≤ b.conc_high := by
  induction l with
  | nil => simp [find_breakpoint] at h
  | cons a t ih =>
    rw [find_breakpoint] at h
    by_cases hc : a.conc_low ≤ c ∧ c ≤ a.conc_high
    · rw [if_pos hc] at h
      simp only [Option.some.injEq] at h
      subst h
      exact ⟨List.mem_cons_self a t, hc⟩
    · rw [if_neg hc] at h
      have hres := ih h
      exact ⟨List.mem_cons_of_mem a hres.1, hres.2⟩

theorem pairwise_total {r : Breakpoint → Breakpoint → Prop} {l : List Breakpoint}
    (hp : l.Pairwise r) {a b : Breakpoint} (ha : a ∈ l) (hb : b ∈ l) :
    a = b ∨ r a b ∨ r b a := by
  induction l with
  | nil => cases ha
  | cons x t ih =>
    rw [List.pairwise_cons] at hp
    rcases List.mem_cons.mp ha with rfl | ha2
    · rcases List.mem_cons.mp hb with rfl | hb2
      · exact Or.inl rfl
      · exact Or.inr (Or.inl (hp.1 b hb2))
    · rcases List.mem_cons.mp hb with rfl | hb2
      · exact Or.inr (Or.inr (hp.1 a ha2))
      · exact ih hp.2 ha2 hb2

theorem interp_lower {b : Breakpoint} {c : ℚ} (hwf : bpWF b)
    (h1 : b.conc_low ≤ c) : (b.aqi_low : ℚ) ≤ interp b c := by
  rw [interp]
  have hd : (0 : ℚ) < b.conc_high - b.conc_low := sub_pos.mpr hwf.1
  have ha : ((b.aqi_low : ℚ)) ≤ b.aqi_high := by exact_mod_cast hwf.2.1
  have hs : (0 : ℚ) ≤ ((b.aqi_high : ℚ) - b.aqi_low) / (b.conc_high - b.conc_low) :=
    div_nonneg (by linarith) hd.le
  nlinarith [mul_nonneg hs (sub_nonneg.mpr h1)]

theorem interp_upper {b : Breakpoint} {c : ℚ} (hwf : bpWF b)
    (h2 : c ≤ b.conc_high) : interp b c ≤ (b.aqi_high : ℚ) := by
  rw [interp]
  have hd : (0 : ℚ) < b.conc_high - b.conc_low := sub_pos.mpr hwf.1
  have ha : ((b.aqi_low : ℚ)) ≤ b.aqi_high := by exact_mod_cast hwf.2.1
  have hs : (0 : ℚ) ≤ ((b.aqi_high : ℚ) - b.aqi_low) / (b.conc_high - b.conc_low) :=
    div_nonneg (by linarith) hd.le
  have key : ((b.aqi_high : ℚ) - b.aqi_low) / (b.conc_high - b.conc_low)
      * (b.conc_high - b.conc_low) = (b.aqi_high : ℚ) - b.aqi_low :=
    div_mul_cancel₀ _ hd.ne'
  have hstep := mul_le_mul_of_nonneg_left (sub_le_sub_right h2 b.conc_low) hs
  linarith

theorem interp_mono {b : Breakpoint} {x y : ℚ} (hwf : bpWF b) (h : x ≤ y) :
    interp b x ≤ interp b y := by
  rw [interp, interp]
  have hd : (0 : ℚ) < b.conc_high - b.conc_low := sub_pos.mpr hwf.1
  have ha : ((b.aqi_low : ℚ)) ≤ b.aqi_high := by exact_mod_cast hwf.2.1
  have hs : (0 : ℚ) ≤ ((b.aqi_high : ℚ) - b.aqi_low) / (b.conc_high - b.conc_low) :=
    div_nonneg (by linarith) hd.le
  have hstep := mul_le_mul_of_nonneg_left (sub_le_sub_right h b.conc_low) hs
  linarith

theorem calc_aqi_spec {l : List Breakpoint} {c : ℚ} {a : AirQuality}
    (h : calc_aqi l c = some a) :
    ∃ b, find_breakpoint l c = some b ∧ b ∈ l ∧ b.conc_low ≤ c ∧
      c ≤ b.conc_high ∧ a = ⟨round (interp b c), b.level⟩ := by
  rw [calc_aqi] at h
  cases hf : find_breakpoint l c with
  | none => rw [hf] at h; simp at h
  | some b =>
    rw [hf] at h
    simp only [Option.map_some', Option.some.injEq] at h
    obtain ⟨hmem, h1, h2⟩ := find_breakpoint_spec hf
    exact ⟨b, rfl, hmem, h1, h2, h.symm⟩

theorem calc_aqi_of_contained {l : List Breakpoint} {b : Breakpoint} {c : ℚ}
    (hord : tableOrdered l) (hmem : b ∈ l) (h1 : b.conc_low ≤ c)
    (h2 : c ≤ b.conc_high) :
    calc_aqi l c = some ⟨round (interp b c), b.level⟩ := by
  rw [calc_aqi, find_breakpoint_eq_of_mem hord hmem h1 h2]
  simp only [Option.map_some']

theorem calc_aqi_le_500 {l : List Breakpoint} {c : ℚ} {a : AirQuality}
    (hwf : tableWF l) (h : calc_aqi l c = some a) : a.aqi ≤ 500 := by
  obtain ⟨b, hf, hmem, h1, h2, rfl⟩ := calc_aqi_spec h
  have hbwf := hwf.1 b hmem
  have hub : round (interp b c) ≤ b.aqi_high :=
    round_le_of_le (interp_upper hbwf h2) (le_trans hbwf.2.2 (by norm_num))
  exact le_trans hub hbwf.2.2

theorem calc_aqi_mono {l : List Breakpoint} {x y : ℚ} {a1 a2 : AirQuality}
    (hwf : tableWF l) (hxy : x ≤ y)
    (hx : calc_aqi l x = some a1) (hy : calc_aqi l y = some a2) :
    a1.aqi ≤ a2.aqi := by
  obtain ⟨b1, hf1, hm1, hx1, hx2, rfl⟩ := calc_aqi_spec hx
  obtain ⟨b2, hf2, hm2, hy1, hy2, rfl⟩ := calc_aqi_spec hy
  have hb1 := hwf.1 b1 hm1
  have hb2 := hwf.1 b2 hm2
  rcases pairwise_total hwf.2 hm1 hm2 with rfl | hlt | hgt
  · exact round_mono (interp_mono hb1 hxy)
  · have e1 : round (interp b1 x) ≤ b1.aqi_high :=
      round_le_of_le (interp_upper hb1 hx2) (le_trans hb1.2.2 (by norm_num))
    have e2 : b2.aqi_low ≤ round (interp b2 y) :=
      le_round_of_le (interp_lower hb2 hy1)
        (le_trans (le_trans hb2.2.1 hb2.2.2) (by norm_num))
    have e3 : b1.aqi_high < b2.aqi_low := hlt.2
    show round (interp b1 x) ≤ round (interp b2 y)
    omega
  · exfalso
    linarith [hgt.1]

theorem calc_aqi_strict {l : List Breakpoint} {x y : ℚ} {b1 b2 : Breakpoint}
    {a1 a2 : AirQuality} (hwf : tableWF l) (hxy : x ≤ y)
    (hf1 : find_breakpoint l x = some b1) (hf2 : find_breakpoint l y = some b2)
    (hne : b1 ≠ b2)
    (hx : calc_aqi l x = some a1) (hy : calc_aqi l y = some a2) :
    a1.aqi < a2.aqi := by
  have ha1 : a1 = ⟨round (interp b1 x), b1.level⟩ := by
    rw [calc_aqi, hf1] at hx
    simp only [Option.map_some', Option.some.injEq] at hx
    exact hx.symm
  have ha2 : a2 = ⟨round (interp b2 y), b2.level⟩ := by
    rw [calc_aqi, hf2] at hy
    simp only [Option.map_some', Option.some.injEq] at hy
    exact hy.symm
  subst ha1
  subst ha2
  obtain ⟨hm1, hx1, hx2⟩ := find_breakpoint_spec hf1
  obtain ⟨hm2, hy1, hy2⟩ := find_breakpoint_spec hf2
  have hb1 := hwf.1 b1 hm1
  have hb2 := hwf.1 b2 hm2
  rcases pairwise_total hwf.2 hm1 hm2 with rfl | hlt | hgt
  · exact absurd rfl hne
  · have e1 : round (interp b1 x) ≤ b1.aqi_high :=
      round_le_of_le (interp_upper hb1 hx2) (le_trans hb1.2.2 (by norm_num))
    have e2 : b2.aqi_low ≤ round (interp b2 y) :=
      le_round_of_le (interp_lower hb2 hy1)
        (le_trans (le_trans hb2.2.1 hb2.2.2) (by norm_num))
    have e3 : b1.aqi_high < b2.aqi_low := hlt.2
    show round (interp b1 x) < round (interp b2 y)
    omega
  · exfalso
    linarith [hgt.1]

/-! ### Well-formedness of the concrete tables -/

theorem OZONE8_WF : tableWF OZONE8_BREAKPOINTS := by
  norm_num [OZONE8_BREAKPOINTS, tableWF, bpWF, tableOrdered, List.pairwise_cons,
    List.forall_mem_cons]

theorem OZONE1_WF : tableWF OZONE1_BREAKPOINTS := by
  norm_num [OZONE1_BREAKPOINTS, tableWF, bpWF, tableOrdered, List.pairwise_cons,
    List.forall_mem_cons]

theorem PM25_WF : tableWF PM25_BREAKPOINTS := by
  norm_num [PM25_BREAKPOINTS, tableWF, bpWF, tableOrdered, List.pairwise_cons,
    List.forall_mem_cons]

theorem PM10_WF : tableWF PM10_BREAKPOINTS := by
  norm_num [PM10_BREAKPOINTS, tableWF, bpWF, tableOrdered, List.pairwise_cons,
    List.forall_mem_cons]

theorem CO_WF : tableWF CO_BREAKPOINTS := by
  norm_num [CO_BREAKPOINTS, tableWF, bpWF, tableOrdered, List.pairwise_cons,
    List.forall_mem_cons]

theorem SO2_1_WF : tableWF SO2_1_BREAKPOINTS := by
  norm_num [SO2_1_BREAKPOINTS, tableWF, bpWF, tableOrdered, List.pairwise_cons,
    List.forall_mem_cons]

theorem SO2_24_WF : tableWF SO2_24_BREAKPOINTS := by
  norm_num [SO2_24_BREAKPOINTS, tableWF, bpWF, tableOrdered, List.pairwise_cons,
    List.forall_mem_cons]

theorem NO2_WF : tableWF NO2_BREAKPOINTS := by
  norm_num [NO2_BREAKPOINTS, tableWF, bpWF, tableOrdered, List.pairwise_cons,
    List.forall_mem_cons]

/-! ### Concrete evaluations of `pm2_5` at the reference concentrations -/

theorem pm25_at_12_0 : pm2_5 12.0 = some ⟨50, .Good⟩ := by
  have ht : trunc 12.0 1 = 12.0 := trunc_eq_self (k := 120) (by norm_num) (by norm_num)
  rw [pm2_5, ht]
  exact calc_aqi_eval (b := ⟨0.0, 12.0, 0, 50, .Good⟩)
    (by norm_num [find_breakpoint, PM25_BREAKPOINTS]) (by norm_num [interp])
    (by norm_num [interp]) (by norm_num [interp]) (by norm_num)

theorem pm25_at_12_1 : pm2_5 12.1 = some ⟨51, .Moderate⟩ := by
  have ht : trunc 12.1 1 = 12.1 := trunc_eq_self (k := 121) (by norm_num) (by norm_num)
  rw [pm2_5, ht]
  exact calc_aqi_eval (b := ⟨12.1, 35.4, 51, 100, .Moderate⟩)
    (by norm_num [find_breakpoint, PM25_BREAKPOINTS]) (by norm_num [interp])
    (by norm_num [interp]) (by norm_num [interp]) (by norm_num)

theorem pm25_at_35_4 : pm2_5 35.4 = some ⟨100, .Moderate⟩ := by
  have ht : trunc 35.4 1 = 35.4 := trunc_eq_self (k := 354) (by norm_num) (by norm_num)
  rw [pm2_5, ht]
  exact calc_aqi_eval (b := ⟨12.1, 35.4, 51, 100, .Moderate⟩)
    (by norm_num [find_breakpoint, PM25_BREAKPOINTS]) (by norm_num [interp])
    (by norm_num [interp]) (by norm_num [interp]) (by norm_num)

theorem pm25_at_35_5 : pm2_5 35.5 = some ⟨101, .UnhealthySensitive⟩ := by
  have ht : trunc 35.5 1 = 35.5 := trunc_eq_self (k := 355) (by norm_num) (by norm_num)
  rw [pm2_5, ht]
  exact calc_aqi_eval (b := ⟨35.5, 55.4, 101, 150, .UnhealthySensitive⟩)
    (by norm_num [find_breakpoint, PM25_BREAKPOINTS]) (by norm_num [interp])
    (by norm_num [interp]) (by norm_num [interp]) (by norm_num)

theorem pm25_at_55_4 : pm2_5 55.4 = some ⟨150, .UnhealthySensitive⟩ := by
  have ht : trunc 55.4 1 = 55.4 := trunc_eq_self (k := 554) (by norm_num) (by norm_num)
  rw [pm2_5, ht]
  exact calc_aqi_eval (b := ⟨35.5, 55.4, 101, 150, .UnhealthySensitive⟩)
    (by norm_num [find_breakpoint, PM25_BREAKPOINTS]) (by norm_num [interp])
    (by norm_num [interp]) (by norm_num [interp]) (by norm_num)

theorem pm25_at_500_4 : pm2_5 500.4 = some ⟨500, .Hazardous⟩ := by
  have ht : trunc 500.4 1 = 500.4 := trunc_eq_self (k := 5004) (by norm_num) (by norm_num)
  rw [pm2_5, ht]
  exact calc_aqi_eval (b := ⟨350.5, 500.4, 401, 500, .Hazardous⟩)
    (by norm_num [find_breakpoint, PM25_BREAKPOINTS]) (by norm_num [interp])
    (by norm_num [interp]) (by norm_num [interp]) (by norm_num)

theorem pm25_at_16 : pm2_5 16.0 = some ⟨59, .Moderate⟩ := by
  have ht : trunc 16.0 1 = 16.0 := trunc_eq_self (k := 160) (by norm_num) (by norm_num)
  rw [pm2_5, ht]
  exact calc_aqi_eval (b := ⟨12.1, 35.4, 51, 100, .Moderate⟩)
    (by norm_num [find_breakpoint, PM25_BREAKPOINTS]) (by norm_num [interp])
    (by norm_num [interp]) (by norm_num [interp]) (by norm_num)

theorem pm25_at_85 : pm2_5 85.0 = some ⟨166, .Unhealthy⟩ := by
  have ht : trunc 85.0 1 = 85.0 := trunc_eq_self (k := 850) (by norm_num) (by norm_num)
  rw [pm2_5, ht]
  exact calc_aqi_eval (b := ⟨55.5, 150.4, 151, 200, .Unhealthy⟩)
    (by norm_num [find_breakpoint, PM25_BREAKPOINTS]) (by norm_num [interp])
    (by norm_num [interp]) (by norm_num [interp]) (by norm_num)

theorem pm25_at_138 : pm2_5 138.0 = some ⟨194, .Unhealthy⟩ := by
  have ht : trunc 138.0 1 = 138.0 := trunc_eq_self (k := 1380) (by norm_num) (by norm_num)
  rw [pm2_5, ht]
  exact calc_aqi_eval (b := ⟨55.5, 150.4, 151, 200, .Unhealthy⟩)
    (by norm_num [find_breakpoint, PM25_BREAKPOINTS]) (by norm_num [interp])
    (by norm_num [interp]) (by norm_num [interp]) (by norm_num)

theorem pm25_at_175 : pm2_5 175.0 = some ⟨225, .VeryUnhealthy⟩ := by
  have ht : trunc 175.0 1 = 175.0 := trunc_eq_self (k := 1750) (by norm_num) (by norm_num)
  rw [pm2_5, ht]
  exact calc_aqi_eval (b := ⟨150.5, 250.4, 201, 300, .VeryUnhealthy⟩)
    (by norm_num [find_breakpoint, PM25_BREAKPOINTS]) (by norm_num [interp])
    (by norm_num [interp]) (by norm_num [interp]) (by norm_num)

theorem pm25_at_200 : pm2_5 200.0 = some ⟨250, .VeryUnhealthy⟩ := by
  have ht : trunc 200.0 1 = 200.0 := trunc_eq_self (k := 2000) (by norm_num) (by norm_num)
  rw [pm2_5, ht]
  exact calc_aqi_eval (b := ⟨150.5, 250.4, 201, 300, .VeryUnhealthy⟩)
    (by norm_num [find_breakpoint, PM25_BREAKPOINTS]) (by norm_num [interp])
    (by norm_num [interp]) (by norm_num [interp]) (by norm_num)

/-! ### Evaluations at concentration zero (for the tables whose first
breakpoint starts at zero) and for the 1-hour ozone table -/

theorem calc_zero_PM25 : calc_aqi PM25_BREAKPOINTS 0 = some ⟨0, .Good⟩ :=
  calc_aqi_eval (b := ⟨0.0, 12.0, 0, 50, .Good⟩)
    (by norm_num [find_breakpoint, PM25_BREAKPOINTS]) (by norm_num [interp])
    (by norm_num [interp]) (by norm_num [interp]) (by norm_num)

theorem calc_zero_PM10 : calc_aqi PM10_BREAKPOINTS 0 = some ⟨0, .Good⟩ :=
  calc_aqi_eval (b := ⟨0.0, 54.0, 0, 50, .Good⟩)
    (by norm_num [find_breakpoint, PM10_BREAKPOINTS]) (by norm_num [interp])
    (by norm_num [interp]) (by norm_num [interp]) (by norm_num)

theorem calc_zero_CO : calc_aqi CO_BREAKPOINTS 0 = some ⟨0, .Good⟩ :=
  calc_aqi_eval (b := ⟨0.0, 4.4, 0, 50, .Good⟩)
    (by norm_num [find_breakpoint, CO_BREAKPOINTS]) (by norm_num [interp])
    (by norm_num [interp]) (by norm_num [interp]) (by norm_num)

theorem calc_zero_SO2_1 : calc_aqi SO2_1_BREAKPOINTS 0 = some ⟨0, .Good⟩ :=
  calc_aqi_eval (b := ⟨0.0, 35.0, 0, 50, .Good⟩)
    (by norm_num [find_breakpoint, SO2_1_BREAKPOINTS]) (by norm_num [interp])
    (by norm_num [interp]) (by norm_num [interp]) (by norm_num)

theorem calc_zero_SO2_24 : calc_aqi SO2_24_BREAKPOINTS 0 = some ⟨0, .Good⟩ :=
  calc_aqi_eval (b := ⟨0.0, 35.0, 0, 50, .Good⟩)
    (by norm_num [find_breakpoint, SO2_24_BREAKPOINTS]) (by norm_num [interp])
    (by norm_num [interp]) (by norm_num [interp]) (by norm_num)

theorem calc_zero_NO2 : calc_aqi NO2_BREAKPOINTS 0 = some ⟨0, .Good⟩ :=
  calc_aqi_eval (b := ⟨0.0, 53.0, 0, 50, .Good⟩)
    (by norm_num [find_breakpoint, NO2_BREAKPOINTS]) (by norm_num [interp])
    (by norm_num [interp]) (by norm_num [interp]) (by norm_num)

theorem calc_zero_OZONE8 : calc_aqi OZONE8_BREAKPOINTS 0 = some ⟨0, .Good⟩ :=
  calc_aqi_eval (b := ⟨0.000, 0.054, 0, 50, .Good⟩)
    (by norm_num [find_breakpoint, OZONE8_BREAKPOINTS]) (by norm_num [interp])
    (by norm_num [interp]) (by norm_num [interp]) (by norm_num)

theorem calc_zero_OZONE1 : calc_aqi OZONE1_BREAKPOINTS 0 = none := by
  norm_num [calc_aqi, find_breakpoint, OZONE1_BREAKPOINTS]

theorem allTables_WF : ∀ t ∈ allTables, tableWF t := by
  intro t ht
  simp only [allTables, List.mem_cons, List.not_mem_nil, or_false] at ht
  rcases ht with rfl | rfl | rfl | rfl | rfl | rfl | rfl | rfl
  · exact OZONE8_WF
  · exact OZONE1_WF
  · exact PM25_WF
  · exact PM10_WF
  · exact CO_WF
  · exact SO2_1_WF
  · exact SO2_24_WF
  · exact NO2_WF

/-! ### Claim theorems -/

/-- C1: `pm2_5` returns exactly the reference values on the spec's boundary
and midpoint inputs: 12.0 ↦ AQI 50 (Good), 12.1 ↦ 51 (Moderate), 35.4 ↦ 100,
35.5 ↦ 101, 55.4 ↦ 150, 500.4 ↦ 500, 16.0 ↦ 59, 85.0 ↦ 166, 138.0 ↦ 194,
175.0 ↦ 225, 200.0 ↦ 250. -/
theorem C1_pm2_5_reference_values :
    pm2_5 12.0 = some ⟨50, .Good⟩ ∧
    pm2_5 12.1 = some ⟨51, .Moderate⟩ ∧
    (pm2_5 35.4).map AirQuality.aqi = some 100 ∧
    (pm2_5 35.5).map AirQuality.aqi = some 101 ∧
    (pm2_5 55.4).map AirQuality.aqi = some 150 ∧
    (pm2_5 500.4).map AirQuality.aqi = some 500 ∧
    (pm2_5 16.0).map AirQuality.aqi = some 59 ∧
    (pm2_5 85.0).map AirQuality.aqi = some 166 ∧
    (pm2_5 138.0).map AirQuality.aqi = some 194 ∧
    (pm2_5 175.0).map AirQuality.aqi = some 225 ∧
    (pm2_5 200.0).map AirQuality.aqi = some 250 := by
  refine ⟨pm25_at_12_0, pm25_at_12_1, ?_, ?_, ?_, ?_, ?_, ?_, ?_, ?_, ?_⟩ <;>
    simp [pm25_at_35_4, pm25_at_35_5, pm25_at_55_4, pm25_at_500_4, pm25_at_16,
      pm25_at_85, pm25_at_138, pm25_at_175, pm25_at_200]

/-- C2: for every breakpoint table and every concentration contained in the
closed range of some breakpoint of that table, `calc_aqi` returns `some`
result whose `aqi` is the rounded linear interpolation for that breakpoint
and whose `level` is that breakpoint's level; it never rejects a contained
concentration. -/
theorem C2_calc_aqi_interpolates :
    ∀ t ∈ allTables, ∀ b ∈ t, ∀ c : ℚ,
      b.conc_low ≤ c → c ≤ b.conc_high →
      calc_aqi t c =
        some ⟨round (((b.aqi_high : ℚ) - (b.aqi_low : ℚ))
            / (b.conc_high - b.conc_low) * (c - b.conc_low) + (b.aqi_low : ℚ)),
          b.level⟩ := by
  intro t ht b hb c h1 h2
  exact calc_aqi_of_contained (allTables_WF t ht).2 hb h1 h2

/-- Witness for C2 at the first PM2.5 breakpoint and concentration 6. -/
theorem C2_witness :
    calc_aqi PM25_BREAKPOINTS 6 =
      some ⟨round ((((⟨0.0, 12.0, 0, 50, .Good⟩ : Breakpoint).aqi_high : ℚ)
          - ((⟨0.0, 12.0, 0, 50, .Good⟩ : Breakpoint).aqi_low : ℚ))
          / ((⟨0.0, 12.0, 0, 50, .Good⟩ : Breakpoint).conc_high
            - (⟨0.0, 12.0, 0, 50, .Good⟩ : Breakpoint).conc_low)
          * (6 - (⟨0.0, 12.0, 0, 50, .Good⟩ : Breakpoint).conc_low)
          + ((⟨0.0, 12.0, 0, 50, .Good⟩ : Breakpoint).aqi_low : ℚ)),
        (⟨0.0, 12.0, 0, 50, .Good⟩ : Breakpoint).level⟩ :=
  C2_calc_aqi_interpolates PM25_BREAKPOINTS (by simp [allTables])
    ⟨0.0, 12.0, 0, 50, .Good⟩ (by simp [PM25_BREAKPOINTS]) 6
    (by norm_num) (by norm_num)

/-- C3: `trunc` truncates rather than rounds: on every non-negative value
whose scaled image stays below `2 ^ 64` (so that the `u64` cast does not
saturate), `trunc v n` is the floor of `v * 10 ^ n` divided back by `10 ^ n`;
in particular `trunc 12.349999999 1 = 12.3`, not `12.4`. -/
theorem C3_trunc_truncates :
    (∀ (v : ℚ) (n : ℕ), 0 ≤ v → v * 10 ^ n < 2 ^ 64 →
      trunc v n = (⌊v * 10 ^ n⌋ : ℚ) / 10 ^ n) ∧
    trunc 12.349999999 1 = 12.3 ∧ trunc 12.349999999 1 ≠ 12.4 := by
  have hconc : trunc 12.349999999 1 = 12.3 := by
    rw [trunc, castU64,
      castSat_eval (x := (12.349999999 : ℚ) * 10 ^ 1) (n := 123)
        (by norm_num) (by norm_num) (by norm_num)]
    norm_num
  refine ⟨?_, hconc, by rw [hconc]; norm_num⟩
  intro v n hv hlt
  have h0 : (0 : ℚ) ≤ v * 10 ^ n := by positivity
  have hfl : (0 : ℤ) ≤ ⌊v * 10 ^ n⌋ := Int.floor_nonneg.mpr h0
  have hup : ⌊v * 10 ^ n⌋ ≤ 2 ^ 64 - 1 := by
    have hq : (⌊v * 10 ^ n⌋ : ℚ) < 2 ^ 64 := lt_of_le_of_lt (Int.floor_le _) hlt
    have hz : ⌊v * 10 ^ n⌋ < (2 ^ 64 : ℤ) := by exact_mod_cast hq
    omega
  rw [trunc, castU64, castSat, if_neg (not_lt.mpr h0)]
  have hmin : min (Int.toNat ⌊v * 10 ^ n⌋) (2 ^ 64 - 1) = Int.toNat ⌊v * 10 ^ n⌋ :=
    Nat.min_eq_left (by omega)
  rw [hmin]
  congr 1
  exact_mod_cast Int.toNat_of_nonneg hfl

/-- Witness for C3's universal part at `v = 2.5`, `n = 0`. -/
theorem C3_witness : trunc 2.5 0 = (⌊(2.5 : ℚ) * 10 ^ 0⌋ : ℚ) / 10 ^ 0 :=
  C3_trunc_truncates.1 2.5 0 (by norm_num) (by norm_num)

/-- C5: the shared `TryFrom` body (one instance per integer width `u16, i16,
u32, i32, u64, i64`, all restrictions of this function on `ℤ`) maps
0–50 ↦ Good, 51–100 ↦ Moderate, 101–150 ↦ UnhealthySensitive,
151–200 ↦ Unhealthy, 201–300 ↦ VeryUnhealthy, 301–500 ↦ Hazardous, and
returns the static domain-error message on every other value (negative or
above 500); in particular 0 ↦ Good, 50 ↦ Good, 51 ↦ Moderate,
500 ↦ Hazardous, 501 ↦ error, −1 ↦ error. -/
theorem C5_try_from_bands :
    (∀ v : ℤ, 0 ≤ v → v ≤ 50 → try_from_aq v = .ok .Good) ∧
    (∀ v : ℤ, 51 ≤ v → v ≤ 100 → try_from_aq v = .ok .Moderate) ∧
    (∀ v : ℤ, 101 ≤ v → v ≤ 150 → try_from_aq v = .ok .UnhealthySensitive) ∧
    (∀ v : ℤ, 151 ≤ v → v ≤ 200 → try_from_aq v = .ok .Unhealthy) ∧
    (∀ v : ℤ, 201 ≤ v → v ≤ 300 → try_from_aq v = .ok .VeryUnhealthy) ∧
    (∀ v : ℤ, 301 ≤ v → v ≤ 500 → try_from_aq v = .ok .Hazardous) ∧
    (∀ v : ℤ, v < 0 ∨ 500 < v →
      try_from_aq v = .error "Value is out of range for AQI") ∧
    try_from_aq 0 = .ok .Good ∧ try_from_aq 50 = .ok .Good ∧
    try_from_aq 51 = .ok .Moderate ∧ try_from_aq 500 = .ok .Hazardous ∧
    try_from_aq 501 = .error "Value is out of range for AQI" ∧
    try_from_aq (-1) = .error "Value is out of range for AQI" := by
  refine ⟨?_, ?_, ?_, ?_, ?_, ?_, ?_, rfl, rfl, rfl, rfl, rfl, rfl⟩
  · intro v h1 h2
    rw [try_from_aq, if_pos ⟨h1, h2⟩]
  · intro v h1 h2
    rw [try_from_aq, if_neg (by omega), if_pos ⟨h1, h2⟩]
  · intro v h1 h2
    rw [try_from_aq, if_neg (by omega), if_neg (by omega), if_pos ⟨h1, h2⟩]
  · intro v h1 h2
    rw [try_from_aq, if_neg (by omega), if_neg (by omega), if_neg (by omega),
      if_pos ⟨h1, h2⟩]
  · intro v h1 h2
    rw [try_from_aq, if_neg (by omega), if_neg (by omega), if_neg (by omega),
      if_neg (by omega), if_pos ⟨h1, h2⟩]
  · intro v h1 h2
    rw [try_from_aq, if_neg (by omega), if_neg (by omega), if_neg (by omega),
      if_neg (by omega), if_neg (by omega), if_pos ⟨h1, h2⟩]
  · intro v hv
    rw [try_from_aq, if_neg (by omega), if_neg (by omega), if_neg (by omega),
      if_neg (by omega), if_neg (by omega), if_neg (by omega)]

/-- Witness for C5's band statements at `v = 42`. -/
theorem C5_witness : try_from_aq 42 = .ok .Good :=
  C5_try_from_bands.1 42 (by norm_num) (by norm_num)

/-- C6: `pm2_5_epa` returns `none` for every humidity strictly outside
`[0, 1]` regardless of concentration, and on `[0, 1]` (endpoints included)
applies the correction `0.52·c − 0.085·h + 5.71`, truncates to 1 decimal
place, and looks the result up in the PM2.5 table. -/
theorem C6_pm2_5_epa_humidity_gate :
    ∀ c hum : ℚ,
      ((hum < 0 ∨ 1 < hum) → pm2_5_epa c hum = none) ∧
      (0 ≤ hum → hum ≤ 1 →
        pm2_5_epa c hum =
          calc_aqi PM25_BREAKPOINTS
            (trunc (0.52 * c - 0.085 * hum + 5.71) 1)) := by
  intro c hum
  constructor
  · intro hh
    rw [pm2_5_epa, if_neg]
    rintro ⟨h1, h2⟩
    rcases hh with hh | hh
    · linarith
    · linarith
  · intro h1 h2
    rw [pm2_5_epa, if_pos ⟨h1, h2⟩]

/-- Witness for C6 at humidity 2 (rejected) and humidity 1 (accepted). -/
theorem C6_witness :
    pm2_5_epa 10 2 = none ∧
    pm2_5_epa 10 1 =
      calc_aqi PM25_BREAKPOINTS (trunc (0.52 * 10 - 0.085 * 1 + 5.71) 1) :=
  ⟨(C6_pm2_5_epa_humidity_gate 10 2).1 (by norm_num),
   (C6_pm2_5_epa_humidity_gate 10 1).2 (by norm_num) (by norm_num)⟩

/-- C7: `pm2_5_lrapa` returns `none` for every raw concentration strictly
above 65, and for concentrations up to and including 65 applies the
correction `0.5·c − 0.66`, truncates to 1 decimal place, and looks the
result up in the PM2.5 table. -/
theorem C7_pm2_5_lrapa_gate :
    ∀ c : ℚ,
      (65 < c → pm2_5_lrapa c = none) ∧
      (c ≤ 65 →
        pm2_5_lrapa c =
          calc_aqi PM25_BREAKPOINTS (trunc (0.5 * c - 0.66) 1)) := by
  intro c
  constructor
  · intro hc
    rw [pm2_5_lrapa, if_neg (not_le.mpr hc)]
  · intro hc
    rw [pm2_5_lrapa, if_pos hc]

/-- Witness for C7 at concentration 70 (rejected) and 65 (accepted). -/
theorem C7_witness :
    pm2_5_lrapa 70 = none ∧
    pm2_5_lrapa 65 = calc_aqi PM25_BREAKPOINTS (trunc (0.5 * 65 - 0.66) 1) :=
  ⟨(C7_pm2_5_lrapa_gate 70).1 (by norm_num),
   (C7_pm2_5_lrapa_gate 65).2 (by norm_num)⟩

/-- C4: every formula entry point is monotonically non-decreasing in the
concentration wherever both inputs yield a result; the AQI strictly
increases when the looked-up breakpoint changes; and in every table each
breakpoint's `aqi_high` is the next breakpoint's `aqi_low` minus one. -/
theorem C4_monotone_and_adjacent :
    (∀ x y : ℚ, ∀ a1 a2 : AirQuality, x ≤ y →
      ozone8 x = some a1 → ozone8 y = some a2 → a1.aqi ≤ a2.aqi) ∧
    (∀ x y : ℚ, ∀ a1 a2 : AirQuality, x ≤ y →
      ozone1 x = some a1 → ozone1 y = some a2 → a1.aqi ≤ a2.aqi) ∧
    (∀ x y : ℚ, ∀ a1 a2 : AirQuality, x ≤ y →
      pm2_5 x = some a1 → pm2_5 y = some a2 → a1.aqi ≤ a2.aqi) ∧
    (∀ hum x y : ℚ, ∀ a1 a2 : AirQuality, x ≤ y →
      pm2_5_epa x hum = some a1 → pm2_5_epa y hum = some a2 →
      a1.aqi ≤ a2.aqi) ∧
    (∀ x y : ℚ, ∀ a1 a2 : AirQuality, x ≤ y →
      pm2_5_lrapa x = some a1 → pm2_5_lrapa y = some a2 → a1.aqi ≤ a2.aqi) ∧
    (∀ x y : ℚ, ∀ a1 a2 : AirQuality, x ≤ y →
      pm2_5_aqandu x = some a1 → pm2_5_aqandu y = some a2 → a1.aqi ≤ a2.aqi) ∧
    (∀ x y : ℚ, ∀ a1 a2 : AirQuality, x ≤ y →
      pm10 x = some a1 → pm10 y = some a2 → a1.aqi ≤ a2.aqi) ∧
    (∀ x y : ℚ, ∀ a1 a2 : AirQuality, x ≤ y →
      co x = some a1 → co y = some a2 → a1.aqi ≤ a2.aqi) ∧
    (∀ x y : ℚ, ∀ a1 a2 : AirQuality, x ≤ y →
      so2_1 x = some a1 → so2_1 y = some a2 → a1.aqi ≤ a2.aqi) ∧
    (∀ x y : ℚ, ∀ a1 a2 : AirQuality, x ≤ y →
      so2_24 x = some a1 → so2_24 y = some a2 → a1.aqi ≤ a2.aqi) ∧
    (∀ x y : ℚ, ∀ a1 a2 : AirQuality, x ≤ y →
      no2 x = some a1 → no2 y = some a2 → a1.aqi ≤ a2.aqi) ∧
    (∀ t ∈ allTables, ∀ x y : ℚ, ∀ b1 b2 : Breakpoint, ∀ a1 a2 : AirQuality,
      x ≤ y → find_breakpoint t x = some b1 → find_breakpoint t y = some b2 →
      b1 ≠ b2 → calc_aqi t x = some a1 → calc_aqi t y = some a2 →
      a1.aqi < a2.aqi) ∧
    (∀ t ∈ allTables, List.Chain' (fun a b => a.aqi_high + 1 = b.aqi_low) t) := by
  refine ⟨?_, ?_, ?_, ?_, ?_, ?_, ?_, ?_, ?_, ?_, ?_, ?_, ?_⟩
  · intro x y a1 a2 hxy h1 h2
    rw [ozone8] at h1 h2
    exact calc_aqi_mono OZONE8_WF (trunc_mono 3 hxy) h1 h2
  · intro x y a1 a2 hxy h1 h2
    rw [ozone1] at h1 h2
    exact calc_aqi_mono OZONE1_WF (trunc_mono 3 hxy) h1 h2
  · intro x y a1 a2 hxy h1 h2
    rw [pm2_5] at h1 h2
    exact calc_aqi_mono PM25_WF (trunc_mono 1 hxy) h1 h2
  · intro hum x y a1 a2 hxy h1 h2
    rw [pm2_5_epa] at h1 h2
    by_cases hg : 0 ≤ hum ∧ hum ≤ 1
    · rw [if_pos hg] at h1 h2
      exact calc_aqi_mono PM25_WF (trunc_mono 1 (by linarith)) h1 h2
    · rw [if_neg hg] at h1
      simp at h1
  · intro x y a1 a2 hxy h1 h2
    rw [pm2_5_lrapa] at h1 h2
    by_cases hgx : x ≤ 65
    · rw [if_pos hgx] at h1
      by_cases hgy : y ≤ 65
      · rw [if_pos hgy] at h2
        exact calc_aqi_mono PM25_WF (trunc_mono 1 (by linarith)) h1 h2
      · rw [if_neg hgy] at h2
        simp at h2
    · rw [if_neg hgx] at h1
      simp at h1
  · intro x y a1 a2 hxy h1 h2
    rw [pm2_5_aqandu] at h1 h2
    exact calc_aqi_mono PM25_WF (trunc_mono 1 (by linarith)) h1 h2
  · intro x y a1 a2 hxy h1 h2
    rw [pm10] at h1 h2
    exact calc_aqi_mono PM10_WF
      (by exact_mod_cast Nat.cast_le.mpr (castSat_mono hxy)) h1 h2
  · intro x y a1 a2 hxy h1 h2
    rw [co] at h1 h2
    exact calc_aqi_mono CO_WF (trunc_mono 1 hxy) h1 h2
  · intro x y a1 a2 hxy h1 h2
    rw [so2_1] at h1 h2
    exact calc_aqi_mono SO2_1_WF (trunc_mono 0 hxy) h1 h2
  · intro x y a1 a2 hxy h1 h2
    rw [so2_24] at h1 h2
    exact calc_aqi_mono SO2_24_WF (trunc_mono 0 hxy) h1 h2
  · intro x y a1 a2 hxy h1 h2
    rw [no2] at h1 h2
    exact calc_aqi_mono NO2_WF (trunc_mono 0 hxy) h1 h2
  · intro t ht x y b1 b2 a1 a2 hxy hf1 hf2 hne h1 h2
    exact calc_aqi_strict (allTables_WF t ht) hxy hf1 hf2 hne h1 h2
  · intro t ht
    simp only [allTables, List.mem_cons, List.not_mem_nil, or_false] at ht
    rcases ht with rfl | rfl | rfl | rfl | rfl | rfl | rfl | rfl <;>
      norm_num [OZONE8_BREAKPOINTS, OZONE1_BREAKPOINTS, PM25_BREAKPOINTS,
        PM10_BREAKPOINTS, CO_BREAKPOINTS, SO2_1_BREAKPOINTS, SO2_24_BREAKPOINTS,
        NO2_BREAKPOINTS, List.chain'_cons]

/-- Witness for C4's `pm2_5` monotonicity at concentrations 16 and 85. -/
theorem C4_witness :
    ({ aqi := 59, level := .Moderate } : AirQuality).aqi ≤
      ({ aqi := 166, level := .Unhealthy } : AirQuality).aqi :=
  C4_monotone_and_adjacent.2.2.1 16.0 85.0 ⟨59, .Moderate⟩ ⟨166, .Unhealthy⟩
    (by norm_num) pm25_at_16 pm25_at_85

/-- C8: the `std` rounding path and the manual `no_std` path agree on every
non-negative rational that the library can feed them (anything below
`2 ^ 32 − 1/2`), and both round a fractional part of exactly one half up to
the next integer. -/
theorem C8_round_agreement :
    (∀ v : ℚ, 0 ≤ v → v + 1/2 < 2 ^ 32 → round v = roundNoStd v) ∧
    (∀ n : ℕ, n + 1 ≤ 2 ^ 32 - 1 →
      round ((n : ℚ) + 1/2) = n + 1 ∧ roundNoStd ((n : ℚ) + 1/2) = n + 1) := by
  constructor
  · intro v hv hvlt
    have hf0 : (0 : ℤ) ≤ ⌊v⌋ := Int.floor_nonneg.mpr hv
    have hfle : (⌊v⌋ : ℚ) ≤ v := Int.floor_le v
    have hflt : v < ⌊v⌋ + 1 := Int.lt_floor_add_one v
    have hcap : ⌊v⌋ ≤ 2 ^ 32 - 1 := by
      have hq : (⌊v⌋ : ℚ) < 2 ^ 32 := by linarith
      have hz : ⌊v⌋ < (2 ^ 32 : ℤ) := by exact_mod_cast hq
      omega
    have hwhole : castU32 v = Int.toNat ⌊v⌋ := by
      rw [castU32, castSat, if_neg (not_lt.mpr hv)]
      exact Nat.min_eq_left (by omega)
    have hcast : ((Int.toNat ⌊v⌋ : ℕ) : ℚ) = (⌊v⌋ : ℚ) := by
      exact_mod_cast Int.toNat_of_nonneg hf0
    by_cases hfr : 1/2 ≤ v - ((⌊v⌋ : ℤ) : ℚ)
    · have hfrc : 1/2 ≤ v - ((castU32 v : ℕ) : ℚ) := by
        rw [hwhole, hcast]
        exact hfr
      have hcap2 : Int.toNat ⌊v⌋ + 1 < 2 ^ 32 := by
        have hq2 : ((⌊v⌋ + 1 : ℤ) : ℚ) < 2 ^ 32 := by push_cast; linarith
        have hz2 : ⌊v⌋ + 1 < (2 ^ 32 : ℤ) := by exact_mod_cast hq2
        omega
      have hstd : round v = Int.toNat ⌊v⌋ + 1 :=
        round_eval hv (by push_cast [Int.toNat_of_nonneg hf0]; linarith)
          (by push_cast [Int.toNat_of_nonneg hf0]; linarith) (by omega)
      have hns : roundNoStd v = Int.toNat ⌊v⌋ + 1 := by
        rw [roundNoStd, if_pos hfrc, hwhole, Nat.mod_eq_of_lt (by omega)]
      rw [hstd, hns]
    · have hfrc : ¬ 1/2 ≤ v - ((castU32 v : ℕ) : ℚ) := by
        rw [hwhole, hcast]
        exact hfr
      push_neg at hfr
      have hstd : round v = Int.toNat ⌊v⌋ :=
        round_eval hv (by rw [hcast]; linarith) (by rw [hcast]; linarith)
          (by omega)
      have hns : roundNoStd v = Int.toNat ⌊v⌋ := by
        rw [roundNoStd, if_neg hfrc, hwhole]
      rw [hstd, hns]
  · intro n hn
    constructor
    · exact round_eval (by positivity) (by push_cast; linarith)
        (by push_cast; linarith) (by omega)
    · have hw : castU32 ((n : ℚ) + 1/2) = n :=
        castSat_eval (by linarith) (by linarith) (by omega)
      rw [roundNoStd, hw, if_pos (by linarith), Nat.mod_eq_of_lt (by omega)]

/-- Witness for C8 at `v = 4.5` and at the tie `4 + 1/2`. -/
theorem C8_witness :
    round 4.5 = roundNoStd 4.5 ∧ round (((4 : ℕ) : ℚ) + 1/2) = (4 : ℕ) + 1 :=
  ⟨C8_round_agreement.1 4.5 (by norm_num) (by norm_num),
   (C8_round_agreement.2 4 (by norm_num)).1⟩

/-- C9: every formula entry point only ever returns an AQI in the closed
integer range `[0, 500]`. -/
theorem C9_results_in_range :
    (∀ c : ℚ, ∀ a : AirQuality, ozone8 c = some a → 0 ≤ a.aqi ∧ a.aqi ≤ 500) ∧
    (∀ c : ℚ, ∀ a : AirQuality, ozone1 c = some a → 0 ≤ a.aqi ∧ a.aqi ≤ 500) ∧
    (∀ c : ℚ, ∀ a : AirQuality, pm2_5 c = some a → 0 ≤ a.aqi ∧ a.aqi ≤ 500) ∧
    (∀ c hum : ℚ, ∀ a : AirQuality,
      pm2_5_epa c hum = some a → 0 ≤ a.aqi ∧ a.aqi ≤ 500) ∧
    (∀ c : ℚ, ∀ a : AirQuality,
      pm2_5_lrapa c = some a → 0 ≤ a.aqi ∧ a.aqi ≤ 500) ∧
    (∀ c : ℚ, ∀ a : AirQuality,
      pm2_5_aqandu c = some a → 0 ≤ a.aqi ∧ a.aqi ≤ 500) ∧
    (∀ c : ℚ, ∀ a : AirQuality, pm10 c = some a → 0 ≤ a.aqi ∧ a.aqi ≤ 500) ∧
    (∀ c : ℚ, ∀ a : AirQuality, co c = some a → 0 ≤ a.aqi ∧ a.aqi ≤ 500) ∧
    (∀ c : ℚ, ∀ a : AirQuality, so2_1 c = some a → 0 ≤ a.aqi ∧ a.aqi ≤ 500) ∧
    (∀ c : ℚ, ∀ a : AirQuality, so2_24 c = some a → 0 ≤ a.aqi ∧ a.aqi ≤ 500) ∧
    (∀ c : ℚ, ∀ a : AirQuality, no2 c = some a → 0 ≤ a.aqi ∧ a.aqi ≤ 500) := by
  refine ⟨?_, ?_, ?_, ?_, ?_, ?_, ?_, ?_, ?_, ?_, ?_⟩
  · intro c a h
    rw [ozone8] at h
    exact ⟨Nat.zero_le _, calc_aqi_le_500 OZONE8_WF h⟩
  · intro c a h
    rw [ozone1] at h
    exact ⟨Nat.zero_le _, calc_aqi_le_500 OZONE1_WF h⟩
  · intro c a h
    rw [pm2_5] at h
    exact ⟨Nat.zero_le _, calc_aqi_le_500 PM25_WF h⟩
  · intro c hum a h
    rw [pm2_5_epa] at h
    by_cases hg : 0 ≤ hum ∧ hum ≤ 1
    · rw [if_pos hg] at h
      exact ⟨Nat.zero_le _, calc_aqi_le_500 PM25_WF h⟩
    · rw [if_neg hg] at h
      simp at h
  · intro c a h
    rw [pm2_5_lrapa] at h
    by_cases hg : c ≤ 65
    · rw [if_pos hg] at h
      exact ⟨Nat.zero_le _, calc_aqi_le_500 PM25_WF h⟩
    · rw [if_neg hg] at h
      simp at h
  · intro c a h
    rw [pm2_5_aqandu] at h
    exact ⟨Nat.zero_le _, calc_aqi_le_500 PM25_WF h⟩
  · intro c a h
    rw [pm10] at h
    exact ⟨Nat.zero_le _, calc_aqi_le_500 PM10_WF h⟩
  · intro c a h
    rw [co] at h
    exact ⟨Nat.zero_le _, calc_aqi_le_500 CO_WF h⟩
  · intro c a h
    rw [so2_1] at h
    exact ⟨Nat.zero_le _, calc_aqi_le_500 SO2_1_WF h⟩
  · intro c a h
    rw [so2_24] at h
    exact ⟨Nat.zero_le _, calc_aqi_le_500 SO2_24_WF h⟩
  · intro c a h
    rw [no2] at h
    exact ⟨Nat.zero_le _, calc_aqi_le_500 NO2_WF h⟩

/-- Witness for C9's `pm2_5` conjunct at concentration 16. -/
theorem C9_witness :
    0 ≤ ({ aqi := 59, level := .Moderate } : AirQuality).aqi ∧
      ({ aqi := 59, level := .Moderate } : AirQuality).aqi ≤ 500 :=
  C9_results_in_range.2.2.1 16.0 ⟨59, .Moderate⟩ pm25_at_16

/-- C10: the `u64` cast inside `trunc` (and the `u32` cast inside `pm10`)
saturates negative scaled values to zero, so every formula whose table
starts at concentration 0 maps any negative concentration to
`some { aqi := 0, level := Good }`; only `ozone1`, whose table starts at
0.125, returns `none` on negative input. -/
theorem C10_negative_concentration :
    ∀ c : ℚ, c < 0 →
      pm2_5 c = some ⟨0, .Good⟩ ∧
      pm2_5_lrapa c = some ⟨0, .Good⟩ ∧
      pm10 c = some ⟨0, .Good⟩ ∧
      co c = some ⟨0, .Good⟩ ∧
      so2_1 c = some ⟨0, .Good⟩ ∧
      so2_24 c = some ⟨0, .Good⟩ ∧
      no2 c = some ⟨0, .Good⟩ ∧
      ozone8 c = some ⟨0, .Good⟩ ∧
      ozone1 c = none := by
  intro c hc
  refine ⟨?_, ?_, ?_, ?_, ?_, ?_, ?_, ?_, ?_⟩
  · rw [pm2_5, trunc_of_neg 1 hc]
    exact calc_zero_PM25
  · rw [pm2_5_lrapa, if_pos (by linarith), trunc_of_neg 1 (by linarith)]
    exact calc_zero_PM25
  · have h32 : castU32 c = 0 := castSat_of_neg hc
    rw [pm10, h32, Nat.cast_zero]
    exact calc_zero_PM10
  · rw [co, trunc_of_neg 1 hc]
    exact calc_zero_CO
  · rw [so2_1, trunc_of_neg 0 hc]
    exact calc_zero_SO2_1
  · rw [so2_24, trunc_of_neg 0 hc]
    exact calc_zero_SO2_24
  · rw [no2, trunc_of_neg 0 hc]
    exact calc_zero_NO2
  · rw [ozone8, trunc_of_neg 3 hc]
    exact calc_zero_OZONE8
  · rw [ozone1, trunc_of_neg 3 hc]
    exact calc_zero_OZONE1

/-- Witness for C10 at concentration −1. -/
theorem C10_witness :
    pm2_5 (-1) = some ⟨0, .Good⟩ ∧
    pm2_5_lrapa (-1) = some ⟨0, .Good⟩ ∧
    pm10 (-1) = some ⟨0, .Good⟩ ∧
    co (-1) = some ⟨0, .Good⟩ ∧
    so2_1 (-1) = some ⟨0, .Good⟩ ∧
    so2_24 (-1) = some ⟨0, .Good⟩ ∧
    no2 (-1) = some ⟨0, .Good⟩ ∧
    ozone8 (-1) = some ⟨0, .Good⟩ ∧
    ozone1 (-1) = none :=
  C10_negative_concentration (-1) (by norm_num)

end AqiRs
